import Mathlib

/-
Verification development for the WeChat / CXone BYOC message bridge.

The definitions below are a shallow embedding of the Python sources:
  app/models/messages.py   (payload normalisation: get_openid / get_text)
  app/routes/wechat.py     (webhook GET / POST handlers)
  app/routes/byoc.py       (post_message endpoint)
  app/clients/wechat_client.py and app/clients/cxone_client.py (adapters)
  app/clients/base.py      (retry + circuit-breaker transport)
Effectful steps (network calls, XML parsing, decryption, UTF-8 decoding)
are passed in as explicit function parameters; Python exceptions become
constructors of explicit outcome types.
-/

/-
Model of the Python/JSON scalar values that can appear in the permissive
"metadata" dict of a payload.  Collections are not modelled: the code only
ever applies truthiness and str() to these values, and the claims under
study only involve JSON scalars.
-/
inductive PyVal where
  | vnull : PyVal
  | vstr (s : String) : PyVal
  | vint (n : Int) : PyVal
  | vbool (b : Bool) : PyVal
deriving DecidableEq, Repr

/-- Python truthiness for the modelled scalar values. -/
def pyTruthy : PyVal → Bool
  | .vnull => false
  | .vstr s => s ≠ ""
  | .vint n => n ≠ 0
  | .vbool b => b

/-- Decimal digits of a natural number, least significant first (empty for 0). -/
def natDigitsRev (n : Nat) : List Char :=
  if h : n = 0 then []
  else Nat.digitChar (n % 10) :: natDigitsRev (n / 10)
decreasing_by exact Nat.div_lt_self (Nat.pos_of_ne_zero h) (by decide)

/-- Python str() of a natural number. -/
def pyNatStr (n : Nat) : String :=
  if n = 0 then "0" else ⟨(natDigitsRev n).reverse⟩

/-- Python str() of an int. -/
def pyIntStr (i : Int) : String :=
  if i < 0 then "-" ++ pyNatStr i.natAbs else pyNatStr i.toNat

/-- Python str() of a modelled scalar value. -/
def pyStr : PyVal → String
  | .vnull => "None"
  | .vstr s => s
  | .vint n => pyIntStr n
  | .vbool true => "True"
  | .vbool false => "False"

/-
Embedding of app/models/messages.py.  The pydantic models keep `None` for
absent fields, hence every field is an Option.  Field validators (length
caps) restrict which payloads pydantic accepts but do not change the
extraction logic; they let an empty string through (the validators fire
only on truthy values).
-/

structure ThreadInfo where
  idOnExternalPlatform : Option String
deriving DecidableEq, Repr

structure RecipientInfo where
  idOnExternalPlatform : Option String
deriving DecidableEq, Repr

structure MessageContent where
  text : Option String
  type : Option String
  content : Option String
deriving DecidableEq, Repr

structure CXoneMessagePayload where
  thread : Option ThreadInfo
  recipient : Option RecipientInfo
  message : Option MessageContent
  text : Option String
  content : Option String
  externalId : Option String
  openid : Option String
  metadata : Option (List (String × PyVal))
deriving DecidableEq, Repr

/-- A payload with every field absent (pydantic defaults). -/
def emptyPayload : CXoneMessagePayload :=
  ⟨none, none, none, none, none, none, none, none⟩

/--
Python truthiness filter on an optional string: `some s` survives only
when `s` is non-empty, mirroring `if x:` on an Optional[str].
-/
def truthyStr : Option String → Option String
  | some s => if s = "" then none else some s
  | none => none

/--
The metadata branch of get_openid: `if self.metadata and isinstance(...):
openid = self.metadata.get('openid'); if openid: return str(openid)`.
-/
def metadataOpenid (m : List (String × PyVal)) : Option String :=
  if m.isEmpty then none
  else
    match m.lookup "openid" with
    | some v => if pyTruthy v then some (pyStr v) else none
    | none => none

/-- The `if self.thread and self.thread.idOnExternalPlatform` test:
the candidate id contributed by the thread field, if truthy. -/
def threadCandidate (p : CXoneMessagePayload) : Option String :=
  truthyStr (p.thread.bind ThreadInfo.idOnExternalPlatform)

/-- The candidate id contributed by the recipient field, if truthy. -/
def recipientCandidate (p : CXoneMessagePayload) : Option String :=
  truthyStr (p.recipient.bind RecipientInfo.idOnExternalPlatform)

/-- The candidate text contributed by the message field: message.text
first, else message.content. -/
def messageTextCandidate (p : CXoneMessagePayload) : Option String :=
  p.message.bind (fun m =>
    match truthyStr m.text with
    | some s => some s
    | none => truthyStr m.content)

/-- Embedding of CXoneMessagePayload.get_openid (app/models/messages.py). -/
def CXoneMessagePayload.get_openid (p : CXoneMessagePayload) : Option String :=
  match threadCandidate p with
  | some s => some s
  | none =>
  match recipientCandidate p with
  | some s => some s
  | none =>
  match truthyStr p.externalId with
  | some s => some s
  | none =>
  match p.metadata.bind metadataOpenid with
  | some s => some s
  | none => truthyStr p.openid

/-- Embedding of CXoneMessagePayload.get_text (app/models/messages.py). -/
def CXoneMessagePayload.get_text (p : CXoneMessagePayload) : Option String :=
  match messageTextCandidate p with
  | some s => some s
  | none =>
  match truthyStr p.text with
  | some s => some s
  | none => truthyStr p.content

/-
Modelled from the spec: the webhook signature verifier.  The verification
algorithm lives in the third-party wechatpy library (not under src/); §4.4
of the spec fixes its contract: sort the set of token, timestamp and nonce
lexicographically, concatenate, take the SHA1 hex digest and compare with
the supplied signature, returning a boolean.  The repo's routes and tests
use exactly this boolean contract.  SHA1 itself is implemented below over
byte lists (Nat values < 256), following the FIPS 180 algorithm that
hashlib implements.
-/

/-- Truncate to a 32-bit word. -/
def w32 (x : Nat) : Nat := x % 4294967296

/-- Left rotation of a 32-bit word. -/
def rotl (n x : Nat) : Nat :=
  w32 (Nat.lor (Nat.shiftLeft x n) (Nat.shiftRight x (32 - n)))

/-- Bitwise complement of a 32-bit word. -/
def not32 (x : Nat) : Nat := Nat.xor x 4294967295

/-- SHA1 message padding: append 0x80, zeros, then the 64-bit bit length. -/
def sha1Pad (msg : List Nat) : List Nat :=
  let L := msg.length
  let bitLen := 8 * L
  let k := (119 - L % 64) % 64
  msg ++ [128] ++ List.replicate k 0 ++
    (List.range 8).map (fun i => Nat.shiftRight bitLen (8 * (7 - i)) % 256)

/-- Split a byte list into 64-byte chunks (fuel-driven). -/
def chunksGo : Nat → List Nat → List (List Nat)
  | 0, _ => []
  | _ + 1, [] => []
  | n + 1, l => l.take 64 :: chunksGo n (l.drop 64)

def chunks64 (l : List Nat) : List (List Nat) := chunksGo (l.length / 64 + 1) l

/-- Big-endian 32-bit words from bytes. -/
def toWords : List Nat → List Nat
  | b0 :: b1 :: b2 :: b3 :: rest =>
      (((b0 * 256 + b1) * 256 + b2) * 256 + b3) :: toWords rest
  | _ => []

/-- Extend 16 message words to the 80-word schedule. -/
def extendWords (w16 : List Nat) : Array Nat :=
  (List.range 64).foldl (fun a i =>
    let j := i + 16
    let x := Nat.xor (Nat.xor (a.getD (j - 3) 0) (a.getD (j - 8) 0))
                     (Nat.xor (a.getD (j - 14) 0) (a.getD (j - 16) 0))
    a.push (rotl 1 x)) w16.toArray

/-- One SHA1 compression round. -/
def sha1Round (st : Nat × Nat × Nat × Nat × Nat) (i wi : Nat) :
    Nat × Nat × Nat × Nat × Nat :=
  let (a, b, c, d, e) := st
  let f :=
    if i < 20 then Nat.lor (Nat.land b c) (Nat.land (not32 b) d)
    else if i < 40 then Nat.xor (Nat.xor b c) d
    else if i < 60 then Nat.lor (Nat.lor (Nat.land b c) (Nat.land b d)) (Nat.land c d)
    else Nat.xor (Nat.xor b c) d
  let k :=
    if i < 20 then 1518500249
    else if i < 40 then 1859775393
    else if i < 60 then 2400959708
    else 3395469782
  (w32 (rotl 5 a + f + e + k + wi), a, rotl 30 b, c, d)

/-- Process one 64-byte chunk. -/
def processChunk (h : Nat × Nat × Nat × Nat × Nat) (chunk : List Nat) :
    Nat × Nat × Nat × Nat × Nat :=
  let w := extendWords (toWords chunk)
  let (a, b, c, d, e) :=
    (List.range 80).foldl (fun st i => sha1Round st i (w.getD i 0)) h
  let (h0, h1, h2, h3, h4) := h
  (w32 (h0 + a), w32 (h1 + b), w32 (h2 + c), w32 (h3 + d), w32 (h4 + e))

/-- SHA1 digest (20 bytes) of a byte list. -/
def sha1Bytes (msg : List Nat) : List Nat :=
  let (h0, h1, h2, h3, h4) :=
    (chunks64 (sha1Pad msg)).foldl processChunk
      (1732584193, 4023233417, 2562383102, 271733878, 3285377520)
  ([h0, h1, h2, h3, h4].map (fun h =>
    [h / 16777216 % 256, h / 65536 % 256, h / 256 % 256, h % 256])).flatten

/-- Lower-case hex digit. -/
def hexDigit (n : Nat) : Char :=
  if n < 10 then Char.ofNat (48 + n) else Char.ofNat (87 + n)

/-- Lower-case hex string of a byte list. -/
def bytesToHex (bs : List Nat) : String :=
  ⟨bs.flatMap (fun b => [hexDigit (b / 16), hexDigit (b % 16)])⟩

/-- UTF-8 encoding of one character. -/
def utf8Char (c : Char) : List Nat :=
  let n := c.toNat
  if n < 128 then [n]
  else if n < 2048 then [192 + n / 64, 128 + n % 64]
  else if n < 65536 then [224 + n / 4096, 128 + n / 64 % 64, 128 + n % 64]
  else [240 + n / 262144, 128 + n / 4096 % 64, 128 + n / 64 % 64, 128 + n % 64]

/-- UTF-8 bytes of a string. -/
def strUtf8 (s : String) : List Nat := s.data.flatMap utf8Char

/-- SHA1 hex digest of the UTF-8 encoding of a string, as hashlib computes it. -/
def sha1Hex (s : String) : String := bytesToHex (sha1Bytes (strUtf8 s))

/-- Code-point comparison of character lists, as Python compares strings. -/
def charListLe : List Char → List Char → Bool
  | [], _ => true
  | _ :: _, [] => false
  | a :: as, b :: bs =>
      if a.toNat < b.toNat then true
      else if b.toNat < a.toNat then false
      else charListLe as bs

def pyStrLe (s t : String) : Bool := charListLe s.data t.data

/-- Insertion into an ascending list of strings. -/
def insertStr (s : String) : List String → List String
  | [] => [s]
  | t :: ts => if pyStrLe s t then s :: t :: ts else t :: insertStr s ts

/-- Python sorted() on a list of strings (ascending, stable). -/
def sortStrs : List String → List String
  | [] => []
  | s :: ss => insertStr s (sortStrs ss)

/--
Modelled from the spec: wechatpy check_signature.  Sort token, timestamp
and nonce, join, SHA1, compare with the supplied signature.
-/
def check_signature (token signature timestamp nonce : String) : Bool :=
  sha1Hex (String.join (sortStrs [token, timestamp, nonce])) == signature

/-
Embedding of app/routes/wechat.py.  The handlers return either an HTTP 200
(plaintext echo for GET, empty body for POST) or propagate an
ApplicationError, which app/main.py turns into a JSON response with the
error's status code (400 for ValidationError).
-/

/-- Outcome of the webhook GET handler. -/
inductive GetOutcome where
  | plaintext (body : String) : GetOutcome
  | validationError (message : String) : GetOutcome
deriving DecidableEq, Repr

/--
Embedding of wechat_webhook_get: validate the signature and echo echostr,
else raise ValidationError.  The boolean verifier cannot raise, so the
handler's fallback except-branch (ValidationError with a different
message) is unreachable in the model.
-/
def wechat_webhook_get (token signature timestamp nonce echostr : String) :
    GetOutcome :=
  if check_signature token signature timestamp nonce then
    .plaintext echostr
  else
    .validationError "Invalid WeChat signature"

/-- A parsed WeChat message as wechatpy's parse_message yields it: a type
tag, the sender openid (source) and the text content.  Absent attributes
are modelled as empty strings, which is what the handler's truthiness
checks test for. -/
structure ParsedMsg where
  type : String
  source : String
  content : String
deriving DecidableEq, Repr

/-- Result of the forwarding call get_cxone_client().post_message(...):
either success, a CXoneAPIError, or any other exception.  All three are
absorbed by the handler. -/
inductive ForwardOutcome where
  | success : ForwardOutcome
  | cxoneError : ForwardOutcome
  | otherError : ForwardOutcome
deriving DecidableEq, Repr

/-- Outcome of the webhook POST handler. -/
inductive PostOutcome where
  | ok200 : PostOutcome
  | validationError (message : String) : PostOutcome
deriving DecidableEq, Repr

/--
Embedding of wechat_webhook_post.  The effectful steps are parameters:
`decode` models body_bytes.decode (none = UnicodeDecodeError, caught by
the outer except and answered 200); `decrypt` models
WeChatCrypto.decrypt_message (none = decryption failure, logged and
ignored, raw body kept); `parse` models wechatpy's parse_message (none =
parse exception, caught by the outer except and answered 200); `forward`
models the post to CXone.  hasAesKey mirrors settings.wechat_encoding_aes_key
being non-empty.
-/
def wechat_webhook_post (token signature timestamp nonce : String)
    (rawBody : List Nat) (decode : List Nat → Option String)
    (hasAesKey : Bool) (decrypt : String → Option String)
    (parse : String → Option ParsedMsg)
    (forward : String → String → ForwardOutcome) : PostOutcome :=
  if !check_signature token signature timestamp nonce then
    .validationError "Invalid WeChat signature"
  else if rawBody.length > 100000 then
    .validationError "Request body too large"
  else
    match decode rawBody with
    | none => .ok200
    | some decoded =>
      let xmlContent :=
        if hasAesKey then
          match decrypt decoded with
          | some d => d
          | none => decoded
        else decoded
      match parse xmlContent with
      | none => .ok200
      | some msg =>
        if msg.type = "text" then
          if msg.source = "" ∨ msg.content = "" then .ok200
          else
            match forward msg.source msg.content with
            | .success => .ok200
            | .cxoneError => .ok200
            | .otherError => .ok200
        else .ok200

/-
Embedding of the outbound adapters.

app/clients/wechat_client.py WeChatClientWrapper.send_text_message:
local validation, then the wechatpy network call; any exception from the
network call is wrapped into a WeChatAPIError.

app/clients/cxone_client.py CXoneClient.post_message: local validation,
then the transport POST; any exception is wrapped into a CXoneAPIError.

The network part is a parameter: Except.ok is a successful response,
Except.error the message of whatever exception the call raised.
-/

/-- Adapter call result: local MessageProcessingError, wrapped downstream
API error, or success. -/
inductive AdapterOut where
  | mpError (message : String) : AdapterOut
  | apiError (message : String) : AdapterOut
  | ok (ackId : String) : AdapterOut
deriving DecidableEq, Repr

/-- Embedding of WeChatClientWrapper.send_text_message. -/
def send_text_message (openid content : String) (net : Except String String) :
    AdapterOut :=
  if openid = "" then .mpError "openid is required"
  else if content = "" then .mpError "message content is required"
  else if content.length > 10000 then
    .mpError "message content exceeds 10000 characters"
  else
    match net with
    | .ok msgid => .ok msgid
    | .error e => .apiError ("Failed to send message to WeChat: " ++ e)

/-- Embedding of CXoneClient.post_message (the adapter layer over the
transport; the transport itself is modelled separately below). -/
def cxone_post_message (openid text : String) (net : Except String String) :
    AdapterOut :=
  if openid = "" then .mpError "openid is required"
  else if text = "" then .mpError "message text is required"
  else
    match net with
    | .ok respId => .ok respId
    | .error e => .apiError ("Failed to post message to CXone: " ++ e)

/-
Embedding of app/routes/byoc.py post_message (the route handler body that
runs after bearer-token authentication succeeded).  `parsed` is the result
of CXoneMessagePayload(**body) (none = pydantic ValidationError), `send`
is the outcome of send_text_message for the extracted pair, and `genId`
the uuid4 the handler generates.  Only WeChatAPIError is caught and
swallowed; send_text_message cannot raise anything else for the non-empty,
length-validated arguments this route passes it.
-/

/-- Outcome of send_text_message as seen by the byoc route. -/
inductive SendOutcome where
  | sent : SendOutcome
  | wechatError : SendOutcome
deriving DecidableEq, Repr

/-- Outcome of the byoc post_message route. -/
inductive ByocOutcome where
  | ok200 (idOnExternalPlatform : String) : ByocOutcome
  | validationError (message : String) : ByocOutcome
  | processingError (message : String) : ByocOutcome
deriving DecidableEq, Repr

/-- Embedding of the byoc post_message handler. -/
def post_message_route (id : String) (parsed : Option CXoneMessagePayload)
    (send : String → String → SendOutcome) (genId : String) : ByocOutcome :=
  if id = "" ∨ id.length > 128 then .validationError "Invalid post ID"
  else
    match parsed with
    | none => .validationError "Invalid request payload"
    | some payload =>
      match payload.get_openid with
      | none => .processingError "Could not extract openid from payload"
      | some openid =>
        if openid = "" then .processingError "Could not extract openid from payload"
        else
          match payload.get_text with
          | none => .processingError "Could not extract message text from payload"
          | some text =>
            if text = "" then
              .processingError "Could not extract message text from payload"
            else
              match send openid text with
              | .sent => .ok200 genId
              | .wechatError => .ok200 genId

/-
Embedding of app/clients/base.py BaseHTTPClient together with the two
third-party pieces it composes:

* pybreaker.CircuitBreaker — modelled from the spec (§4.1) and pybreaker's
  documented semantics, since the library is not under src/: a failure
  counter, a stored state name and the opening time.  A successful call
  resets the counter (and closes a half-open circuit); a failed call
  increments it and, at fail_max, opens the circuit, surfacing a
  CircuitBreakerError; while open, a breaker-mediated call before the
  cool-down raises CircuitBreakerError, and after the cool-down performs a
  single half-open trial.  Crucially, the stored state name changes only
  through these breaker-mediated transitions — mere passage of time never
  rewrites it.

* the tenacity retry decorator with stop_after_attempt(max_retries),
  retry_if_exception_type((TimeoutException, NetworkError)) and
  reraise=True: only network/timeout errors are retried, and when the
  attempts are exhausted the LAST underlying exception is re-raised as is
  (RetryError is never raised, which makes the `except RetryError` branch
  of _make_request dead code).

Network behaviour is a parameter: `net k` is what self.client.request does
on the k-th dispatched attempt of one logical call.
-/

/-- Stored circuit-breaker state name ('closed' / 'open' / 'half-open'). -/
inductive CBName where
  | closed : CBName
  | opened : CBName
  | halfOpen : CBName
deriving DecidableEq, Repr

/-- pybreaker state: stored name, consecutive-failure counter, time the
circuit was opened. -/
structure CBState where
  name : CBName
  counter : Nat
  openedAt : Nat
deriving DecidableEq, Repr

/-- Fresh breaker state of a newly constructed client. -/
def cbInit : CBState := ⟨.closed, 0, 0⟩

/-- What one httpx request attempt does: an HTTP response, or a
timeout/network exception. -/
inductive NetResult where
  | resp (status : Nat) (body : String) : NetResult
  | netErr (msg : String) : NetResult
deriving DecidableEq, Repr

/-- What a breaker-mediated call yields. -/
inductive BreakerOut where
  | ok (status : Nat) (body : String) : BreakerOut
  | reraised (msg : String) : BreakerOut
  | cbError (msg : String) : BreakerOut
deriving DecidableEq, Repr

/-- Half-open trial call of pybreaker: success closes the circuit, failure
reopens it with a fresh cool-down window. -/
def breakerTrial (now : Nat) (st : CBState) (r : NetResult) :
    BreakerOut × CBState :=
  match r with
  | .resp s b => (.ok s b, ⟨.closed, 0, st.openedAt⟩)
  | .netErr _ =>
      (.cbError "Trial call failed, circuit breaker opened",
        ⟨.opened, st.counter + 1, now⟩)

/-- Modelled from the spec: pybreaker.CircuitBreaker.call (third-party,
not under src/).  See the section comment above for the semantics. -/
def breakerCall (failMax timeoutDur now : Nat) (st : CBState)
    (r : NetResult) : BreakerOut × CBState :=
  match st.name with
  | .closed =>
    match r with
    | .resp s b => (.ok s b, ⟨.closed, 0, st.openedAt⟩)
    | .netErr m =>
      if failMax ≤ st.counter + 1 then
        (.cbError "Failures threshold reached, circuit breaker opened",
          ⟨.opened, st.counter + 1, now⟩)
      else (.reraised m, ⟨.closed, st.counter + 1, st.openedAt⟩)
  | .opened =>
    if now < st.openedAt + timeoutDur then
      (.cbError "Timeout not elapsed yet, circuit breaker still open", st)
    else breakerTrial now st r
  | .halfOpen => breakerTrial now st r

/-- What one execution of the _make_request body raises or returns. -/
inductive RequestOut where
  | success (status : Nat) (body : String) : RequestOut
  | raisedNet (msg : String) : RequestOut
  | raisedAPI (message : String) (status : Nat) (detail : String) : RequestOut
  | raisedHTTPStatus (status : Nat) : RequestOut
  | raisedCB (msg : String) : RequestOut
deriving DecidableEq, Repr

/--
Embedding of one execution of the _make_request body in
BaseHTTPClient._request_with_retry (app/clients/base.py): short-circuit
with a 503 ExternalAPIError whenever the STORED breaker state is 'open'
(note: regardless of elapsed time), otherwise dispatch through the
breaker; then raise_for_status: a 4xx response becomes a non-retryable
ExternalAPIError carrying the response body truncated to 500 characters,
a 5xx response re-raises the raw HTTPStatusError (which the tenacity
predicate does not retry), and timeout/network errors re-raise (retryable).
-/
def makeRequestOnce (baseUrl : String) (failMax timeoutDur now : Nat)
    (st : CBState) (r : NetResult) : RequestOut × CBState :=
  if st.name = .opened then
    (.raisedAPI ("Circuit breaker is open for " ++ baseUrl) 503 "", st)
  else
    match breakerCall failMax timeoutDur now st r with
    | (.ok status body, st1) =>
      if 400 ≤ status ∧ status < 500 then
        (.raisedAPI ("Client error from " ++ baseUrl ++ ": " ++ pyNatStr status)
          status (body.take 500), st1)
      else if 500 ≤ status then (.raisedHTTPStatus status, st1)
      else (.success status body, st1)
    | (.reraised m, st1) => (.raisedNet m, st1)
    | (.cbError m, st1) => (.raisedCB m, st1)

/-- The tenacity loop: attempt k, with `retriesLeft` further attempts
allowed; only raisedNet outcomes are retried, and the last one is
re-raised raw (reraise=True). -/
def attemptFrom (baseUrl : String) (failMax timeoutDur now : Nat)
    (net : Nat → NetResult) : Nat → Nat → CBState → RequestOut × CBState
  | k, 0, st => makeRequestOnce baseUrl failMax timeoutDur now st (net k)
  | k, r + 1, st =>
    match makeRequestOnce baseUrl failMax timeoutDur now st (net k) with
    | (.raisedNet _, st1) =>
        attemptFrom baseUrl failMax timeoutDur now net (k + 1) r st1
    | out => out

/-- Embedding of BaseHTTPClient._request_with_retry: up to maxRetries
attempts (stop_after_attempt counts attempts, not re-tries). -/
def request_with_retry (baseUrl : String)
    (failMax timeoutDur maxRetries now : Nat) (net : Nat → NetResult)
    (st : CBState) : RequestOut × CBState :=
  attemptFrom baseUrl failMax timeoutDur now net 0 (maxRetries - 1) st

/--
The transport call as the CXoneClient instance configures it
(app/clients/cxone_client.py): BaseHTTPClient defaults
circuit_breaker_failure_threshold = 5 and circuit_breaker_timeout = 60
(CXoneClient passes no override), and max_retries =
settings.http_max_retries = 3.
-/
def cxone_request (baseUrl : String) (now : Nat) (net : Nat → NetResult)
    (st : CBState) : RequestOut × CBState :=
  request_with_retry baseUrl 5 60 3 now net st

/- Helper lemmas about the truthiness filters. -/

theorem truthyStr_ne_empty {o : Option String} {s : String}
    (h : truthyStr o = some s) : s ≠ "" := by
  cases o with
  | none => simp [truthyStr] at h
  | some t =>
    by_cases ht : t = "" <;> simp [truthyStr, ht] at h
    subst h; exact ht

theorem natDigitsRev_ne_nil {n : Nat} (h : n ≠ 0) : natDigitsRev n ≠ [] := by
  rw [natDigitsRev]
  simp [h]

theorem pyNatStr_ne_empty {n : Nat} (h : n ≠ 0) : pyNatStr n ≠ "" := by
  unfold pyNatStr
  simp only [h, if_false]
  intro hc
  have hdata := congrArg String.data hc
  simp at hdata
  exact natDigitsRev_ne_nil h hdata

theorem pyStr_ne_empty_of_truthy {v : PyVal} (h : pyTruthy v = true) :
    pyStr v ≠ "" := by
  cases v with
  | vnull => simp [pyTruthy] at h
  | vstr s => simpa [pyTruthy] using h
  | vbool b =>
    cases b with
    | true => simp [pyStr]
    | false => simp [pyTruthy] at h
  | vint n =>
    simp only [pyTruthy, ne_eq, decide_eq_true_eq] at h
    unfold pyStr pyIntStr
    by_cases hn : n < 0
    · simp only [hn, if_true]
      intro hc
      have hd := congrArg String.data hc
      rw [String.data_append] at hd
      simp at hd
    · simp only [hn, if_false]
      apply pyNatStr_ne_empty
      omega

theorem metadataOpenid_ne_empty {m : List (String × PyVal)} {s : String}
    (h : metadataOpenid m = some s) : s ≠ "" := by
  unfold metadataOpenid at h
  split at h
  · simp at h
  · split at h
    · next v hv =>
      split at h
      · next htr =>
        have := pyStr_ne_empty_of_truthy htr
        simp at h
        subst h
        exact this
      · simp at h
    · simp at h

set_option maxRecDepth 8000 in
example : sha1Hex "abc" = "a9993e364706816aba3e25717850c26c9cd0d89d" := by decide
set_option maxRecDepth 8000 in
example : sha1Hex "" = "da39a3ee5e6b4b0d3255bfef95601890afd80709" := by decide
set_option maxRecDepth 8000 in
example : check_signature "token" "2281069218034965b5452f066243552ce6594a04"
    "123" "nonce" = true := by decide

/- Invariants of the extraction functions. -/

theorem metaBind_ne_empty {o : Option (List (String × PyVal))} {s : String}
    (h : o.bind metadataOpenid = some s) : s ≠ "" := by
  cases o with
  | none => simp at h
  | some m => exact metadataOpenid_ne_empty (by simpa using h)

theorem get_openid_ne_empty {p : CXoneMessagePayload} {s : String}
    (h : p.get_openid = some s) : s ≠ "" := by
  unfold CXoneMessagePayload.get_openid at h
  split at h
  · next hc => exact Option.some_injective _ h ▸ truthyStr_ne_empty hc
  · split at h
    · next hc => exact Option.some_injective _ h ▸ truthyStr_ne_empty hc
    · split at h
      · next hc => exact Option.some_injective _ h ▸ truthyStr_ne_empty hc
      · split at h
        · next hc => exact Option.some_injective _ h ▸ metaBind_ne_empty hc
        · exact truthyStr_ne_empty h

theorem get_text_ne_empty {p : CXoneMessagePayload} {s : String}
    (h : p.get_text = some s) : s ≠ "" := by
  unfold CXoneMessagePayload.get_text at h
  split at h
  · next hc =>
    unfold messageTextCandidate at hc
    cases hm : p.message with
    | none => rw [hm] at hc; simp at hc
    | some m =>
      rw [hm] at hc
      simp only [Option.some_bind] at hc
      have := Option.some_injective _ h
      subst this
      split at hc
      · next ht => exact truthyStr_ne_empty (hc ▸ ht)
      · exact truthyStr_ne_empty hc
  · split at h
    · next hc => exact Option.some_injective _ h ▸ truthyStr_ne_empty hc
    · exact truthyStr_ne_empty h

/--
C3 (amended): extraction follows the fixed first-match-wins priority of
the code, where a field matches when it is present AND truthy (non-empty):
externalId from thread.idOnExternalPlatform, then
recipient.idOnExternalPlatform, then externalId, then metadata.openid
coerced with str(), then top-level openid; text from message.text, then
message.content, then top-level text, then top-level content.
-/
theorem extraction_priority_order (p : CXoneMessagePayload) :
    (∀ t s, p.thread = some t → t.idOnExternalPlatform = some s → s ≠ "" →
      p.get_openid = some s) ∧
    (threadCandidate p = none →
      ∀ r s, p.recipient = some r → r.idOnExternalPlatform = some s → s ≠ "" →
        p.get_openid = some s) ∧
    (threadCandidate p = none → recipientCandidate p = none →
      ∀ s, p.externalId = some s → s ≠ "" → p.get_openid = some s) ∧
    (threadCandidate p = none → recipientCandidate p = none →
      truthyStr p.externalId = none →
      ∀ m v, p.metadata = some m → m.lookup "openid" = some v →
        pyTruthy v = true → p.get_openid = some (pyStr v)) ∧
    (threadCandidate p = none → recipientCandidate p = none →
      truthyStr p.externalId = none → p.metadata.bind metadataOpenid = none →
      ∀ s, p.openid = some s → s ≠ "" → p.get_openid = some s) ∧
    (∀ m s, p.message = some m → m.text = some s → s ≠ "" →
      p.get_text = some s) ∧
    (∀ m s, p.message = some m → truthyStr m.text = none → m.content = some s →
      s ≠ "" → p.get_text = some s) ∧
    (messageTextCandidate p = none →
      ∀ s, p.text = some s → s ≠ "" → p.get_text = some s) ∧
    (messageTextCandidate p = none → truthyStr p.text = none →
      ∀ s, p.content = some s → s ≠ "" → p.get_text = some s) := by
  refine ⟨?_, ?_, ?_, ?_, ?_, ?_, ?_, ?_, ?_⟩
  · intro t s ht hid hs
    have hc : threadCandidate p = some s := by
      simp [threadCandidate, ht, hid, truthyStr, hs]
    simp [CXoneMessagePayload.get_openid, hc]
  · intro h1 r s hr hid hs
    have hc : recipientCandidate p = some s := by
      simp [recipientCandidate, hr, hid, truthyStr, hs]
    simp [CXoneMessagePayload.get_openid, h1, hc]
  · intro h1 h2 s he hs
    have hc : truthyStr p.externalId = some s := by simp [he, truthyStr, hs]
    simp [CXoneMessagePayload.get_openid, h1, h2, hc]
  · intro h1 h2 h3 m v hm hl hv
    have hne : m ≠ [] := by intro hnil; subst hnil; simp at hl
    have hc : p.metadata.bind metadataOpenid = some (pyStr v) := by
      simp [hm, metadataOpenid, hne, hl, hv]
    simp [CXoneMessagePayload.get_openid, h1, h2, h3, hc]
  · intro h1 h2 h3 h4 s ho hs
    have hc : truthyStr p.openid = some s := by simp [ho, truthyStr, hs]
    simp [CXoneMessagePayload.get_openid, h1, h2, h3, h4, hc]
  · intro m s hm ht hs
    have hc : messageTextCandidate p = some s := by
      simp [messageTextCandidate, hm, truthyStr, ht, hs]
    simp [CXoneMessagePayload.get_text, hc]
  · intro m s hm ht hcnt hs
    have hc : messageTextCandidate p = some s := by
      simp only [messageTextCandidate, hm, Option.some_bind, ht]
      simp [truthyStr, hcnt, hs]
    simp [CXoneMessagePayload.get_text, hc]
  · intro h1 s ht hs
    have hc : truthyStr p.text = some s := by simp [ht, truthyStr, hs]
    simp [CXoneMessagePayload.get_text, h1, hc]
  · intro h1 h2 s hcnt hs
    have hc : truthyStr p.content = some s := by simp [hcnt, truthyStr, hs]
    simp [CXoneMessagePayload.get_text, h1, h2, hc]

/-- Concrete payload whose thread id is present but empty while externalId
is populated. -/
def payloadEmptyThreadId : CXoneMessagePayload :=
  ⟨some ⟨some ""⟩, none, none, none, none, some "W_X", none, none⟩

/--
C3 (counterexample): in this payload `thread.idOnExternalPlatform` IS
present (as the empty string, which pydantic's validator admits), yet
get_openid chooses the top-level externalId instead — refuting the claim
that a present thread id is always chosen over every other id-bearing
field.
-/
theorem thread_id_present_but_not_chosen :
    payloadEmptyThreadId.thread = some ⟨some ""⟩ ∧
    payloadEmptyThreadId.get_openid = some "W_X" := by
  exact ⟨rfl, by decide⟩

/-- Witness for extraction_priority_order at a concrete payload. -/
theorem extraction_priority_order_witness :
    (⟨some ⟨some "u1"⟩, none, none, none, none, none, none, none⟩ :
        CXoneMessagePayload).get_openid = some "u1" :=
  (extraction_priority_order _).1 ⟨some "u1"⟩ "u1" rfl rfl (by decide)

/--
C7: once the byoc route is past authentication, id validation and payload
parsing, and an openid and a text are extractable, it answers 200 with the
generated id for EVERY send outcome — in particular when send_text_message
raises WeChatAPIError, which the route logs and swallows.
-/
theorem byoc_post_message_acks_despite_send_failure :
    ∀ (id gid : String) (p : CXoneMessagePayload)
      (send : String → String → SendOutcome) (openid text : String),
      id ≠ "" → id.length ≤ 128 →
      p.get_openid = some openid → p.get_text = some text →
      post_message_route id (some p) send gid = .ok200 gid := by
  intro id gid p send openid text hid hlen ho ht
  have hs := get_openid_ne_empty ho
  have hts := get_text_ne_empty ht
  have hcond : ¬ (id = "" ∨ id.length > 128) := by
    push_neg
    exact ⟨hid, by omega⟩
  simp [post_message_route, hcond, ho, hs, ht, hts]
  split <;> rfl

/-- Witness for C7: a concrete round-trip payload, with a send that fails
with WeChatAPIError, still yields 200 with the generated id. -/
theorem byoc_post_message_witness :
    post_message_route "post1"
      (some ⟨some ⟨some "u1"⟩, none, some ⟨some "hi", some "text", none⟩,
        none, none, none, none, none⟩)
      (fun _ _ => .wechatError) "gen-uuid-1" = .ok200 "gen-uuid-1" :=
  byoc_post_message_acks_despite_send_failure "post1" "gen-uuid-1" _ _ "u1" "hi"
    (by decide) (by decide) (by decide) (by decide)

/--
C10: get_openid and get_text never return the empty string — every branch
demands truthiness before returning — and consequently the route-level
"could not extract" MessageProcessingErrors fire exactly when extraction
returns no value at all.
-/
theorem extraction_nonempty_and_route_checks :
    (∀ (p : CXoneMessagePayload) (s : String), p.get_openid = some s → s ≠ "") ∧
    (∀ (p : CXoneMessagePayload) (s : String), p.get_text = some s → s ≠ "") ∧
    (∀ (id gid : String) (p : CXoneMessagePayload)
        (send : String → String → SendOutcome),
      id ≠ "" → id.length ≤ 128 →
      (post_message_route id (some p) send gid =
          .processingError "Could not extract openid from payload" ↔
        p.get_openid = none)) ∧
    (∀ (id gid : String) (p : CXoneMessagePayload)
        (send : String → String → SendOutcome) (openid : String),
      id ≠ "" → id.length ≤ 128 → p.get_openid = some openid →
      (post_message_route id (some p) send gid =
          .processingError "Could not extract message text from payload" ↔
        p.get_text = none)) := by
  refine ⟨fun p s h => get_openid_ne_empty h, fun p s h => get_text_ne_empty h,
    ?_, ?_⟩
  · intro id gid p send hid hlen
    have hcond : ¬ (id = "" ∨ id.length > 128) := by
      push_neg
      exact ⟨hid, by omega⟩
    cases ho : p.get_openid with
    | none => simp [post_message_route, hcond, ho]
    | some s =>
      have hs := get_openid_ne_empty ho
      cases ht : p.get_text with
      | none => simp [post_message_route, hcond, ho, hs, ht]
      | some t =>
        have hts := get_text_ne_empty ht
        simp [post_message_route, hcond, ho, hs, ht, hts]
        split <;> simp
  · intro id gid p send openid hid hlen ho
    have hcond : ¬ (id = "" ∨ id.length > 128) := by
      push_neg
      exact ⟨hid, by omega⟩
    have hs := get_openid_ne_empty ho
    cases ht : p.get_text with
    | none => simp [post_message_route, hcond, ho, hs, ht]
    | some t =>
      have hts := get_text_ne_empty ht
      simp [post_message_route, hcond, ho, hs, ht, hts]
      split <;> simp

/-- Witness for C10's conditional parts at a concrete payload. -/
theorem extraction_nonempty_witness :
    "m0" ≠ "" ∧
    (post_message_route "p0" (some emptyPayload) (fun _ _ => .sent) "g0" =
        .processingError "Could not extract openid from payload" ↔
      emptyPayload.get_openid = none) :=
  ⟨(extraction_nonempty_and_route_checks.1 ⟨none, none, none, none, none,
      some "m0", none, none⟩ "m0" (by decide)),
    (extraction_nonempty_and_route_checks.2.2.1 "p0" "g0" emptyPayload
      (fun _ _ => .sent) (by decide) (by decide))⟩

/--
C6: the webhook GET handler echoes the literal echostr exactly when the
SHA1 hex digest of the lexicographically sorted-and-concatenated token,
timestamp and nonce equals the supplied signature, and rejects with a
ValidationError (400) otherwise.
-/
theorem webhook_get_echo_iff_digest_matches
    (token signature timestamp nonce echostr : String) :
    (sha1Hex (String.join (sortStrs [token, timestamp, nonce])) = signature →
      wechat_webhook_get token signature timestamp nonce echostr =
        .plaintext echostr) ∧
    (sha1Hex (String.join (sortStrs [token, timestamp, nonce])) ≠ signature →
      wechat_webhook_get token signature timestamp nonce echostr =
        .validationError "Invalid WeChat signature") := by
  constructor
  · intro h
    simp [wechat_webhook_get, check_signature, h]
  · intro h
    simp [wechat_webhook_get, check_signature, h]

set_option maxRecDepth 8000 in
/-- Witness for C6: a concrete matching digest echoes, computed through
the executable SHA1. -/
theorem webhook_get_echo_witness :
    wechat_webhook_get "token" "2281069218034965b5452f066243552ce6594a04"
      "123" "nonce" "myecho" = .plaintext "myecho" :=
  (webhook_get_echo_iff_digest_matches "token"
    "2281069218034965b5452f066243552ce6594a04" "123" "nonce" "myecho").1
    (by decide)

set_option maxRecDepth 8000 in
/-- The concrete signature used in webhook POST scenarios verifies. -/
theorem post_sig_ok :
    check_signature "tok" "659e9c778a6ed8e2402343a1baf43d22a4991041" "99" "n1"
      = true := by decide

/--
C1 (amended): a webhook POST whose signature verifies AND whose raw body
is at most 100,000 bytes is always answered 200 with an empty body,
whatever happens afterwards: UTF-8 decode failure, decryption failure,
parse failure, non-text message type, falsy sender or text, and any
forwarding outcome (success, CXoneAPIError, or any other exception).
-/
theorem webhook_post_acks_once_verified_within_limit
    (token signature timestamp nonce : String) (rawBody : List Nat)
    (decode : List Nat → Option String) (hasAesKey : Bool)
    (decrypt : String → Option String) (parse : String → Option ParsedMsg)
    (forward : String → String → ForwardOutcome)
    (hsig : check_signature token signature timestamp nonce = true)
    (hlen : rawBody.length ≤ 100000) :
    wechat_webhook_post token signature timestamp nonce rawBody decode
      hasAesKey decrypt parse forward = .ok200 := by
  have hlt : ¬ (rawBody.length > 100000) := by omega
  simp only [wechat_webhook_post, hsig, Bool.not_true, Bool.false_eq_true,
    if_false, hlt]
  cases decode rawBody with
  | none => rfl
  | some decoded =>
    simp only []
    cases parse (if hasAesKey then
        match decrypt decoded with
        | some d => d
        | none => decoded
      else decoded) with
    | none => rfl
    | some msg =>
      simp only []
      split
      · split
        · rfl
        · cases forward msg.source msg.content <;> rfl
      · rfl

set_option maxRecDepth 8000 in
/-- Witness for C1's amended theorem at a concrete verified request. -/
theorem webhook_post_ack_witness :
    wechat_webhook_post "tok" "659e9c778a6ed8e2402343a1baf43d22a4991041"
      "99" "n1" [60, 120, 109, 108, 62] (fun _ => some "<xml>") false
      (fun _ => none) (fun _ => none) (fun _ _ => .cxoneError) = .ok200 :=
  webhook_post_acks_once_verified_within_limit "tok"
    "659e9c778a6ed8e2402343a1baf43d22a4991041" "99" "n1"
    [60, 120, 109, 108, 62] (fun _ => some "<xml>") false (fun _ => none)
    (fun _ => none) (fun _ _ => .cxoneError) (by decide) (by decide)

set_option maxRecDepth 8000 in
/--
C1 (counterexample): a POST whose signature verifies but whose body
exceeds 100,000 bytes is answered with a ValidationError (400), not 200 —
so "the webhook caller always receives success once signature verification
has passed" does not hold unconditionally.
-/
theorem webhook_post_oversize_body_rejected :
    wechat_webhook_post "tok" "659e9c778a6ed8e2402343a1baf43d22a4991041"
      "99" "n1" (List.replicate 100001 60) (fun _ => some "<xml>") false
      (fun _ => none) (fun _ => none) (fun _ _ => .success)
      = .validationError "Request body too large" := by
  have hsig := post_sig_ok
  unfold wechat_webhook_post
  rw [hsig]
  simp only [Bool.not_true, List.length_replicate]
  rw [if_neg (by decide), if_pos (by decide)]

/--
C9: when an encoding AES key is configured and decryption of the decoded
body fails, the handler proceeds with the raw body as plaintext: the
response is identical to that of the handler with no key configured on
the same request, for every decrypt function — a decryption failure alone
never changes the response outcome.
-/
theorem decryption_failure_keeps_outcome
    (token signature timestamp nonce : String) (rawBody : List Nat)
    (decode : List Nat → Option String)
    (decrypt otherDecrypt : String → Option String)
    (parse : String → Option ParsedMsg)
    (forward : String → String → ForwardOutcome) (decoded : String)
    (hdec : decode rawBody = some decoded)
    (hfail : decrypt decoded = none) :
    wechat_webhook_post token signature timestamp nonce rawBody decode
        true decrypt parse forward =
      wechat_webhook_post token signature timestamp nonce rawBody decode
        false otherDecrypt parse forward := by
  simp only [wechat_webhook_post, hdec, hfail]
  simp

/-- Witness for C9 at a concrete request with failing decryption. -/
theorem decryption_failure_witness :
    wechat_webhook_post "t" "s" "1" "n" [60] (fun _ => some "<xml>") true
        (fun _ => none) (fun _ => none) (fun _ _ => .success) =
      wechat_webhook_post "t" "s" "1" "n" [60] (fun _ => some "<xml>") false
        (fun _ => some "ignored") (fun _ => none) (fun _ _ => .success) :=
  decryption_failure_keeps_outcome "t" "s" "1" "n" [60]
    (fun _ => some "<xml>") (fun _ => none) (fun _ => some "ignored")
    (fun _ => none) (fun _ _ => .success) "<xml>" rfl rfl

/-- A 10,001-character text, one character over the WeChat adapter limit. -/
def longText : String := ⟨List.replicate 10001 'a'⟩

theorem longText_length : longText.length = 10001 := by
  show (List.replicate 10001 'a').length = 10001
  rw [List.length_replicate]

theorem longText_ne_empty : longText ≠ "" := by
  intro h
  have h2 := congrArg String.length h
  rw [longText_length] at h2
  simp at h2

/--
C5 (counterexample): on a non-empty openid and a 10,001-character text the
WeChat adapter fails locally, but CXoneClient.post_message performs no
length check at all: it proceeds to the network call and returns its
result — refuting the claim that both adapters perform the same local
validation including the 10,000-character cap.
-/
theorem cxone_post_message_no_length_cap :
    cxone_post_message "u" longText (.ok "r1") = .ok "r1" ∧
    send_text_message "u" longText (.ok "m1") =
      .mpError "message content exceeds 10000 characters" := by
  constructor
  · unfold cxone_post_message
    rw [if_neg (by decide), if_neg longText_ne_empty]
  · unfold send_text_message
    rw [if_neg (by decide), if_neg longText_ne_empty,
      if_pos (by rw [longText_length]; decide)]

/--
C5 (amended): the WeChat adapter send_text_message rejects locally — with
a MessageProcessingError and no network call — an empty openid, an empty
text, and a text over 10,000 characters; CXoneClient.post_message rejects
locally only an empty openid or an empty text, and has no length cap: any
non-empty pair, however long the text, proceeds to the network call.
-/
theorem adapter_local_validation :
    (∀ (openid content : String) (net net2 : Except String String),
      openid = "" ∨ content = "" ∨ content.length > 10000 →
      send_text_message openid content net =
          send_text_message openid content net2 ∧
        ∃ m, send_text_message openid content net = .mpError m) ∧
    (∀ (openid text : String) (net net2 : Except String String),
      openid = "" ∨ text = "" →
      cxone_post_message openid text net = cxone_post_message openid text net2 ∧
        ∃ m, cxone_post_message openid text net = .mpError m) ∧
    (∀ (openid text ack : String), openid ≠ "" → text ≠ "" →
      cxone_post_message openid text (.ok ack) = .ok ack) := by
  refine ⟨?_, ?_, ?_⟩
  · intro o c net net2 h
    rcases h with h | h | h
    · subst h
      exact ⟨by simp [send_text_message], "openid is required",
        by simp [send_text_message]⟩
    · subst h
      by_cases ho : o = ""
      · subst ho
        exact ⟨by simp [send_text_message], "openid is required",
          by simp [send_text_message]⟩
      · exact ⟨by simp [send_text_message, ho],
          "message content is required", by simp [send_text_message, ho]⟩
    · have hc : c ≠ "" := by
        intro e
        subst e
        simp at h
      by_cases ho : o = ""
      · subst ho
        exact ⟨by simp [send_text_message], "openid is required",
          by simp [send_text_message]⟩
      · exact ⟨by simp [send_text_message, ho, hc, h],
          "message content exceeds 10000 characters",
          by simp [send_text_message, ho, hc, h]⟩
  · intro o t net net2 h
    rcases h with h | h
    · subst h
      exact ⟨by simp [cxone_post_message], "openid is required",
        by simp [cxone_post_message]⟩
    · subst h
      by_cases ho : o = ""
      · subst ho
        exact ⟨by simp [cxone_post_message], "openid is required",
          by simp [cxone_post_message]⟩
      · exact ⟨by simp [cxone_post_message, ho],
          "message text is required", by simp [cxone_post_message, ho]⟩
  · intro o t ack ho ht
    simp [cxone_post_message, ho, ht]

/-- Witness for C5's amended theorem at concrete inputs. -/
theorem adapter_local_validation_witness :
    send_text_message "" "hello" (.ok "m") =
        send_text_message "" "hello" (.error "boom") ∧
      cxone_post_message "u" "hi" (.ok "ack7") = .ok "ack7" :=
  ⟨(adapter_local_validation.1 "" "hello" (.ok "m") (.error "boom")
      (Or.inl rfl)).1,
    adapter_local_validation.2.2 "u" "hi" "ack7" (by decide) (by decide)⟩

/--
C2 (counterexample): 3 consecutive transport failures do NOT open the
circuit breaker — CXoneClient leaves BaseHTTPClient's default
fail_max = 5, so the first call (3 failed attempts, ending in the raw
network error, see C4) leaves the breaker closed with counter 3, and the
very next call still reaches the network (here: succeeding), instead of
failing immediately without a network attempt.
-/
theorem circuit_not_open_after_three_failures :
    request_with_retry "https://cx" 5 60 3 0 (fun _ => .netErr "conn") cbInit
        = (.raisedNet "conn", ⟨.closed, 3, 0⟩) ∧
      request_with_retry "https://cx" 5 60 3 0 (fun _ => .resp 200 "OK")
        ⟨.closed, 3, 0⟩ = (.success 200 "OK", ⟨.closed, 0, 0⟩) :=
  ⟨rfl, rfl⟩

/--
C2 (amended): the breaker opens after 5 consecutive transport failures
(the code's default threshold), surfacing pybreaker's CircuitBreakerError;
and while the STORED breaker state is open, every call of
_request_with_retry fails immediately with a 503 service-unavailable
ExternalAPIError — no network attempt, no retry, state unchanged — for
EVERY now, i.e. also after the cool-down has elapsed: the cool-down trial
call is never allowed, because the handler short-circuits on the stored
open state, which only a breaker-mediated call could move to half-open.
-/
theorem circuit_breaker_behaviour :
    (∀ (baseUrl : String) (now : Nat) (net : Nat → NetResult) (st : CBState),
      st.name = .opened →
      request_with_retry baseUrl 5 60 3 now net st =
        (.raisedAPI ("Circuit breaker is open for " ++ baseUrl) 503 "", st)) ∧
    request_with_retry "https://cx" 5 60 3 7 (fun _ => .netErr "conn")
        ⟨.closed, 3, 0⟩ =
      (.raisedCB "Failures threshold reached, circuit breaker opened",
        ⟨.opened, 5, 7⟩) := by
  constructor
  · intro baseUrl now net st h
    simp [request_with_retry, attemptFrom, makeRequestOnce, h]
  · rfl

/-- Witness for C2's amended theorem: with the breaker stored-open since
time 0 and the cool-down (60) long elapsed at time 1000, the call still
fails fast with the 503 ExternalAPIError and no trial is made. -/
theorem circuit_breaker_behaviour_witness :
    request_with_retry "https://cx" 5 60 3 1000 (fun _ => .resp 200 "OK")
        ⟨.opened, 5, 0⟩ =
      (.raisedAPI "Circuit breaker is open for https://cx" 503 "",
        ⟨.opened, 5, 0⟩) :=
  circuit_breaker_behaviour.1 "https://cx" 1000 (fun _ => .resp 200 "OK")
    ⟨.opened, 5, 0⟩ rfl

/--
C4: when retryable failures exhaust the attempt budget (3 attempts), the
caller receives the RAW last network exception — tenacity's reraise=True
re-raises it, and the `except RetryError` branch that would wrap it into
the "Request to ... failed after N retries" ExternalAPIError is dead code
(the retry controller never delivers RetryError into the decorated body).
This run evaluates the code at the failing input of the code_bug report.
-/
theorem retry_exhaustion_reraises_raw_error :
    request_with_retry "https://cxone.example" 5 60 3 0
        (fun _ => .netErr "ConnectError: connection refused") cbInit =
      (.raisedNet "ConnectError: connection refused", ⟨.closed, 3, 0⟩) :=
  rfl

/-- A 600-character response body, to exercise the 500-character cap. -/
def body600 : String := ⟨List.replicate 600 'x'⟩

set_option maxRecDepth 8000 in
/--
C8: a 4xx response fails immediately — no retry, even though the next
attempt would succeed — with an ExternalAPIError carrying the status code
and the response body truncated to 500 characters; but a 5xx response is
NOT retried either: the raw HTTPStatusError propagates after a single
attempt (the tenacity predicate only retries timeout/network errors),
even though the next attempt would succeed.
-/
theorem http_4xx_immediate_5xx_not_retried :
    request_with_retry "https://cx1" 5 60 3 0
        (fun k => if k = 0 then .resp 404 body600 else .resp 200 "OK")
        cbInit =
      (.raisedAPI ("Client error from https://cx1: " ++ pyNatStr 404) 404
        (body600.take 500), ⟨.closed, 0, 0⟩) ∧
    body600.take 500 = ⟨List.replicate 500 'x'⟩ ∧
    request_with_retry "https://cx1" 5 60 3 0
        (fun k => if k = 0 then .resp 500 "boom" else .resp 200 "OK")
        cbInit =
      (.raisedHTTPStatus 500, ⟨.closed, 0, 0⟩) := by
  refine ⟨rfl, ?_, rfl⟩
  rw [String.take_eq]
  show (⟨(List.replicate 600 'x').take 500⟩ : String) = ⟨List.replicate 500 'x'⟩
  rw [List.take_replicate]
  norm_num
